import Mathlib

/-
  Verification of the agent reasoning/execution engine and approval-gate
  state machine of the aws-audit-agents repository, as a shallow embedding
  in Lean 4. Sources embedded: src/agents/audit_agent.py,
  src/agents/audit_team.py, src/agents/tools.py, src/agents/llm_client.py.
-/

set_option maxRecDepth 8000

namespace AuditSpec

/-- Python-style whitespace predicate (the characters str.strip removes). -/
def isPyWs (c : Char) : Bool :=
  c = ' ' || c = '\t' || c = '\n' || c = '\r' || c = '\x0b' || c = '\x0c'

/-- Drop leading Python whitespace from a character list. -/
def dropLeadingWs : List Char → List Char
  | [] => []
  | c :: cs => if isPyWs c then dropLeadingWs cs else c :: cs

/-- Model of Python str.strip(): remove whitespace from both ends. -/
def pyStrip (s : String) : String :=
  ⟨(dropLeadingWs (dropLeadingWs s.data).reverse).reverse⟩

/-- Model of Python str.lower() (ASCII). -/
def pyLower (s : String) : String :=
  ⟨s.data.map Char.toLower⟩

/-- Whether the list `p` is a prefix of the list `s` (Boolean). -/
def startsWithL : List Char → List Char → Bool
  | _, [] => true
  | [], _ :: _ => false
  | c :: cs, p :: ps => c = p && startsWithL cs ps

/-- Model of Python str.startswith. -/
def startsWithS (s p : String) : Bool :=
  startsWithL s.data p.data

/-- Index of the first occurrence of `p` in `s`, if any. -/
def findIdx : List Char → List Char → Option Nat
  | s, p =>
    match s with
    | [] => if p = [] then some 0 else none
    | _ :: rest =>
      if startsWithL s p then some 0
      else (findIdx rest p).map (· + 1)

/-- Model of Python str.find: first index of `p` in `s`, or -1. -/
def pyFind (s p : String) : Int :=
  match findIdx s.data p.data with
  | some n => (n : Int)
  | none => -1

/-- Model of Python str.find with a start position. -/
def pyFindFrom (s p : String) (start : Nat) : Int :=
  match findIdx (s.data.drop start) p.data with
  | some n => ((start + n : Nat) : Int)
  | none => -1

/-- Model of Python str.rfind: last index of `p` in `s`, or -1. -/
def pyRFind (s p : String) : Int :=
  match ((List.range (s.data.length + 1)).filter
      (fun i => startsWithL (s.data.drop i) p.data)).getLast? with
  | some n => (n : Int)
  | none => -1

/-- Model of Python substring membership (`p in s`). -/
def pyIn (p s : String) : Bool :=
  (findIdx s.data p.data).isSome

/-- Model of Python slicing s[a:b] (negative indices count from the end). -/
def pySlice (s : String) (a b : Int) : String :=
  let n : Int := s.data.length
  let norm : Int → Int := fun x => if x < 0 then x + n else x
  let a2 := (max 0 (min n (norm a))).toNat
  let b2 := (max 0 (min n (norm b))).toNat
  ⟨(s.data.take b2).drop a2⟩

/-- Model of Python slicing s[a:] from a nonnegative index. -/
def pyDrop (s : String) (a : Nat) : String :=
  ⟨s.data.drop a⟩

/-- Helper for pySplit: split on a nonempty separator, left to right.
Fuel-bounded structural recursion; fuel at least the input length makes
the fallback branch unreachable. -/
def splitAux (s0 : Char) (sp : List Char) : Nat → List Char → List Char →
    List (List Char)
  | 0, s, acc => [acc.reverse ++ s]
  | _ + 1, [], acc => [acc.reverse]
  | fuel + 1, c :: rest, acc =>
    if startsWithL (c :: rest) (s0 :: sp) then
      acc.reverse :: splitAux s0 sp fuel (rest.drop sp.length) []
    else
      splitAux s0 sp fuel rest (c :: acc)

/-- Model of Python str.split(sep) with a nonempty separator. -/
def pySplit (s sep : String) : List String :=
  match sep.data with
  | [] => [s]
  | c :: cs => (splitAux c cs s.data.length s.data []).map (fun l => ⟨l⟩)

/-- Single-character split, the fuel-free specification of splitAux for a
one-character separator. -/
def splitNlAux (s0 : Char) : List Char → List Char → List (List Char)
  | [], acc => [acc.reverse]
  | c :: rest, acc =>
    if c = s0 then acc.reverse :: splitNlAux s0 rest []
    else splitNlAux s0 rest (c :: acc)

/-- True when the string is nonempty and its last character is not
Python whitespace (so str.strip does not shorten it from the right). -/
def lastNonWs (s : String) : Bool :=
  match s.data.getLast? with
  | some c => !isPyWs c
  | none => false

/-- Join strings with a separator (model of Python str.join). -/
def joinSep (sep : String) : List String → String
  | [] => ""
  | [x] => x
  | x :: y :: rest => x ++ sep ++ joinSep sep (y :: rest)

/-- Model of Python str.title(): capitalize the first letter of each run. -/
def pyTitleAux : Bool → List Char → List Char
  | _, [] => []
  | prevAlpha, c :: cs =>
    let c2 := if c.isAlpha then (if prevAlpha then c.toLower else c.toUpper) else c
    c2 :: pyTitleAux c.isAlpha cs

/-- Model of Python str.title(). -/
def pyTitle (s : String) : String :=
  ⟨pyTitleAux false s.data⟩

/-- Number of whitespace-separated words, model of len(s.split()). -/
def pyWordCountAux : Bool → List Char → Nat
  | _, [] => 0
  | inWord, c :: cs =>
    if isPyWs c then pyWordCountAux false cs
    else (if inWord then 0 else 1) + pyWordCountAux true cs

/-- Model of len(str.split()) with no separator argument. -/
def pyWordCount (s : String) : Nat :=
  pyWordCountAux false s.data

/-
  JSON model. The agents exchange decisions as JSON objects whose values
  are strings or nested objects; json.loads is modelled for that fragment
  (string literals without escape sequences, no arrays/numbers), and a
  reply outside the fragment is a parse failure.
-/

/-- JSON value: a string or an object (the fragment the decisions use). -/
inductive JVal where
  | jstr : String → JVal
  | jobj : List (String × JVal) → JVal

/-- Update an association list at a key, Python-dict style: an existing
key keeps its position and gets the new value, a new key is appended. -/
def assocSet {α : Type} : List (String × α) → String → α → List (String × α)
  | [], k, v => [(k, v)]
  | (k2, v2) :: rest, k, v =>
    if k2 = k then (k, v) :: rest else (k2, v2) :: assocSet rest k v

/-- Look a key up in an association list (Python-dict lookup). -/
def alookup {α : Type} : List (String × α) → String → Option α
  | [], _ => none
  | (k2, v) :: rest, k => if k2 = k then some v else alookup rest k

/-- Read a JSON string literal after its opening quote (no escapes). -/
def readStrAux : List Char → List Char → Option (String × List Char)
  | _, [] => none
  | acc, c :: cs =>
    if c = '\"' then some (⟨acc.reverse⟩, cs) else readStrAux (c :: acc) cs

/-- Skip JSON whitespace. -/
def skipWsJ : List Char → List Char
  | [] => []
  | c :: cs => if c = ' ' || c = '\t' || c = '\n' || c = '\r' then skipWsJ cs else c :: cs

mutual

/-- Parse one JSON value (string or object), fuel-bounded. -/
def parseJVal : Nat → List Char → Option (JVal × List Char)
  | 0, _ => none
  | fuel + 1, cs =>
    match skipWsJ cs with
    | '\"' :: rest => (readStrAux [] rest).map (fun p => (JVal.jstr p.1, p.2))
    | '\x7b' :: rest =>
      match skipWsJ rest with
      | '\x7d' :: r2 => some (JVal.jobj [], r2)
      | _ => (parseJMembers fuel rest []).map (fun p => (JVal.jobj p.1, p.2))
    | _ => none

/-- Parse the members of a JSON object after its opening brace. -/
def parseJMembers : Nat → List Char → List (String × JVal) →
    Option (List (String × JVal) × List Char)
  | 0, _, _ => none
  | fuel + 1, cs, acc =>
    match skipWsJ cs with
    | '\"' :: rest =>
      match readStrAux [] rest with
      | none => none
      | some (k, r1) =>
        match skipWsJ r1 with
        | ':' :: r2 =>
          match parseJVal fuel r2 with
          | none => none
          | some (v, r3) =>
            match skipWsJ r3 with
            | ',' :: r4 => parseJMembers fuel r4 (assocSet acc k v)
            | '\x7d' :: r4 => some (assocSet acc k v, r4)
            | _ => none
        | _ => none
    | _ => none

end

/-- A decision dict: the fields of a parsed top-level JSON object. -/
def Decision := List (String × JVal)

/-- Model of json.loads restricted to the decision fragment: the text must
be one JSON object (with optional surrounding whitespace). -/
def json_loads (s : String) : Option Decision :=
  match parseJVal (2 * s.data.length + 2) s.data with
  | some (JVal.jobj fields, rest) => if skipWsJ rest = [] then some fields else none
  | _ => none

mutual

/-- Serialize a JSON value (compact model of json.dumps). -/
def jdump : JVal → String
  | JVal.jstr s => "\"" ++ s ++ "\""
  | JVal.jobj fs => "\x7b" ++ jdumpFields fs ++ "\x7d"

/-- Serialize the fields of a JSON object. -/
def jdumpFields : List (String × JVal) → String
  | [] => ""
  | [(k, v)] => "\"" ++ k ++ "\": " ++ jdump v
  | (k, v) :: p :: rest => "\"" ++ k ++ "\": " ++ jdump v ++ ", " ++ jdumpFields (p :: rest)

end

/-- Dict get on a decision. -/
def dget (d : Decision) (k : String) : Option JVal :=
  alookup d k

/-- Dict get expecting a string value. -/
def dgetStr (d : Decision) (k : String) : Option String :=
  match dget d k with
  | some (JVal.jstr s) => some s
  | _ => none

/-- Dict get expecting an object value, defaulting to the empty dict
(models decision.get with a non-object treated as the common-path dict). -/
def dgetObj (d : Decision) (k : String) : List (String × JVal) :=
  match dget d k with
  | some (JVal.jobj fs) => fs
  | _ => []

/-
  Embedding of src/agents/audit_agent.py: the AuditAgent base class with
  its goal lifecycle, conversation memory, tool dispatch and action log.
  Timestamps, console printing and the knowledge loader are elided; the
  LLM client is modelled as a reply stub (GatewayStub) whose call counter
  records how many chat calls were made.
-/

/-- A registered tool: name, description and a fallible execute. -/
structure Tool where
  name : String
  description : String
  execute : List (String × JVal) → Except String JVal

/-- One conversation message (role and content). -/
structure Msg where
  role : String
  content : String
  deriving DecidableEq, Repr

/-- Record of an agent action (timestamp elided). -/
structure AgentAction where
  action_type : String
  description : String
  details : List (String × JVal) := []
  result : Option JVal := none

/-- Goal lifecycle states of an agent. -/
inductive GoalStatus where
  | idle
  | working
  | complete
  | blocked
  deriving DecidableEq, Repr

/-- The mutable state of an AuditAgent. -/
structure AgentState where
  name : String
  role : String
  tools : List (String × Tool)
  current_goal : Option String
  goal_status : GoalStatus
  memory : List Msg
  action_history : List AgentAction

/-- The LLM client as the loop sees it: a reply for every call index,
plus the number of chat calls made so far. -/
structure GatewayStub where
  replies : Nat → String
  calls : Nat

/-- One chat call against the stub: returns the next reply and bumps
the call counter. -/
def gchat (l : GatewayStub) : String × GatewayStub :=
  (l.replies l.calls, { l with calls := l.calls + 1 })

/-- AuditAgent._log_action: append an action record to the history. -/
def log_agent_action (s : AgentState) (action_type description : String)
    (details : List (String × JVal)) (result : Option JVal) : AgentState :=
  { s with action_history :=
      s.action_history ++ [⟨action_type, description, details, result⟩] }

/-- Python repr of the list of registered tool names
(list(self.tools.keys())). -/
def toolKeysStr (tools : List (String × Tool)) : String :=
  "[" ++ joinSep ", " (tools.map (fun p => "'" ++ p.1 ++ "'")) ++ "]"

/-- AuditAgent._format_tools_for_prompt (parameter schemas abbreviated:
no claim inspects the prompt text). -/
def format_tools_for_prompt (tools : List (String × Tool)) : String :=
  if tools.isEmpty then "No tools available"
  else joinSep "\n" (tools.map (fun p => "- " ++ p.1 ++ ": " ++ p.2.description))

/-- AuditAgent._init_system_message: append the identity system message
(the prompt body is abbreviated; no claim inspects its text). -/
def init_system_message (s : AgentState) : AgentState :=
  { s with memory := s.memory ++
      [⟨"system", "You are " ++ s.name ++ ", a " ++ s.role ++ ".\n\nAvailable tools:\n" ++
        format_tools_for_prompt s.tools⟩] }

/-- AuditAgent.register_tool: self.tools[tool.name] = tool. There is no
presence check; an existing registration under the same name is replaced. -/
def register_tool (s : AgentState) (t : Tool) : AgentState :=
  { s with tools := assocSet s.tools t.name t }

/-- AuditAgent.__init__: register the given tools, start idle with empty
memory, then synthesize the system message. -/
def mkAgent (name role : String) (tools : List Tool) : AgentState :=
  let s0 : AgentState :=
    { name := name, role := role, tools := [], current_goal := none,
      goal_status := GoalStatus.idle, memory := [], action_history := [] }
  init_system_message (tools.foldl register_tool s0)

/-- AuditAgent.set_goal: unconditionally store the goal, move to working,
append the goal-framing user message and log goal_set. The source has no
status precondition. -/
def set_goal (s : AgentState) (goal : String) : AgentState :=
  let s1 := { s with current_goal := some goal, goal_status := GoalStatus.working }
  let goal_msg := "Your goal: " ++ goal ++
    "\n\nThink step by step about how to achieve this goal. What should you do first?"
  let s2 := { s1 with memory := s1.memory ++ [⟨"user", goal_msg⟩] }
  log_agent_action s2 "goal_set" ("Goal set: " ++ goal) [("goal", JVal.jstr goal)] none

/-- Python truthiness of the current goal (None and the empty string are
falsy in the `if not self.current_goal` guards). -/
def goalFalsy : Option String → Bool
  | none => true
  | some g => g == ""

/-- AuditAgent._parse_llm_response: extract a JSON block (fenced json,
fenced plain, bare object, or first-brace/last-brace span) and parse it. -/
def parse_llm_response (content : String) : Option Decision :=
  let content := pyStrip content
  let json_str : Option String :=
    if pyIn "```json" content then
      let start := pyFind content "```json" + 7
      let e := pyFindFrom content "```" start.toNat
      some (pyStrip (pySlice content start e))
    else if pyIn "```" content then
      let start := pyFind content "```" + 3
      let e := pyFindFrom content "```" start.toNat
      some (pyStrip (pySlice content start e))
    else if startsWithS content "\x7b" then
      some content
    else
      let start := pyFind content "\x7b"
      let e := pyRFind content "\x7d" + 1
      if 0 ≤ start ∧ start < e then some (pySlice content start e) else none
  match json_str with
  | none => none
  | some js => json_loads js

/-- AuditAgent.reason: guard on goal and status, chat, parse; on a parse
failure append one corrective user message and retry exactly once; a
second failure is surfaced as an error (the memory mutations persist). -/
def reason (l : GatewayStub) (s : AgentState) :
    Except String Decision × GatewayStub × AgentState :=
  if goalFalsy s.current_goal then
    (Except.error "No goal set. Call set_goal() first.", l, s)
  else if s.goal_status ≠ GoalStatus.working then
    (Except.error "Agent is not working", l, s)
  else
    let (content, l1) := gchat l
    let s1 := { s with memory := s.memory ++ [⟨"assistant", content⟩] }
    match parse_llm_response content with
    | some decision =>
      let s2 := log_agent_action s1 "reason" "Agent reasoned about next action"
        decision (some (JVal.jstr ((dgetStr decision "reasoning").getD "")))
      (Except.ok decision, l1, s2)
    | none =>
      let clarification_msg := "Your response wasn't in the expected JSON format. \nPlease respond with a valid JSON object specifying your action."
      let s2 := { s1 with memory := s1.memory ++ [(⟨"user", clarification_msg⟩ : Msg)] }
      let (content2, l2) := gchat l1
      let s3 := { s2 with memory := s2.memory ++ [(⟨"assistant", content2⟩ : Msg)] }
      match parse_llm_response content2 with
      | some decision =>
        let s4 := log_agent_action s3 "reason" "Agent reasoned about next action"
          decision (some (JVal.jstr ((dgetStr decision "reasoning").getD "")))
        (Except.ok decision, l2, s4)
      | none => (Except.error "Failed to parse LLM response", l2, s3)

/-- The tool-not-found error message of AuditAgent._execute_tool. -/
def toolNotFoundMsg (tool_name : String) (tools : List (String × Tool)) : String :=
  "Tool '" ++ tool_name ++ "' not found. Available tools: " ++ toolKeysStr tools

/-- AuditAgent._execute_tool: look the tool up; if absent, append the
error to memory (no raise); if present, execute, and fold either the
result or the execution error back into memory, logging a tool_call
action. Exceptions from execute are caught, never re-raised. -/
def execute_tool (s : AgentState) (d : Decision) : JVal × AgentState :=
  let tname := dgetStr d "tool"
  let parameters := dgetObj d "parameters"
  let reasoning := (dgetStr d "reasoning").getD ""
  let found := match tname with
    | some n => alookup s.tools n
    | none => none
  match found with
  | none =>
    let error_msg := toolNotFoundMsg (tname.getD "None") s.tools
    (JVal.jobj [("error", JVal.jstr error_msg)],
     { s with memory := s.memory ++ [⟨"user", error_msg⟩] })
  | some tool =>
    match tool.execute parameters with
    | Except.ok result =>
      let s2 := log_agent_action s "tool_call" ("Used tool: " ++ (tname.getD ""))
        [("tool", JVal.jstr (tname.getD "")), ("parameters", JVal.jobj parameters),
         ("reasoning", JVal.jstr reasoning)] (some result)
      let result_msg := "Tool '" ++ (tname.getD "") ++ "' executed successfully.\n\nResult:\n" ++
        jdump result ++ "\n\nWhat should you do next?"
      (result, { s2 with memory := s2.memory ++ [⟨"user", result_msg⟩] })
    | Except.error e =>
      let error_msg := "Tool execution failed: " ++ e
      let s2 := log_agent_action s "tool_call" ("Tool call failed: " ++ (tname.getD ""))
        [("tool", JVal.jstr (tname.getD "")), ("parameters", JVal.jobj parameters),
         ("error", JVal.jstr e)] none
      (JVal.jobj [("error", JVal.jstr error_msg)],
       { s2 with memory := s2.memory ++ [⟨"user", error_msg⟩] })

/-- AuditAgent._complete_goal: move to complete and log goal_complete. -/
def complete_goal (s : AgentState) (d : Decision) : JVal × AgentState :=
  let summary := (dgetStr d "summary").getD ""
  let next_steps := (dgetStr d "next_steps").getD ""
  let s1 := { s with goal_status := GoalStatus.complete }
  let s2 := log_agent_action s1 "goal_complete" "Goal completed"
    [("summary", JVal.jstr summary), ("next_steps", JVal.jstr next_steps)] none
  (JVal.jobj [("status", JVal.jstr "complete"), ("summary", JVal.jstr summary),
    ("next_steps", JVal.jstr next_steps)], s2)

/-- AuditAgent._document_work: log the documentation, no state change. -/
def document_work (s : AgentState) (d : Decision) : JVal × AgentState :=
  let content := (dgetStr d "content").getD ""
  let reasoning := (dgetStr d "reasoning").getD ""
  let s2 := log_agent_action s "document" "Documented work"
    [("content", JVal.jstr content), ("reasoning", JVal.jstr reasoning)] none
  (JVal.jobj [("status", JVal.jstr "documented"), ("content", JVal.jstr content),
    ("reasoning", JVal.jstr reasoning)], s2)

/-- AuditAgent._send_message: log the message, no state change. -/
def send_message (s : AgentState) (d : Decision) : JVal × AgentState :=
  let toAgent := (dgetStr d "to").getD ""
  let message := (dgetStr d "message").getD ""
  let s2 := log_agent_action s "message" ("Sent message to " ++ toAgent)
    [("to", JVal.jstr toAgent), ("message", JVal.jstr message)] none
  (JVal.jobj [("status", JVal.jstr "sent"), ("to", JVal.jstr toAgent),
    ("message", JVal.jstr message)], s2)

/-- AuditAgent.act: dispatch on the decision kind; an unknown kind is a
raised error (modelled as Except.error, the state unchanged). -/
def act (s : AgentState) (d : Decision) : Except String JVal × AgentState :=
  match dgetStr d "action" with
  | some "use_tool" =>
    let (r, s2) := execute_tool s d
    (Except.ok r, s2)
  | some "goal_complete" =>
    let (r, s2) := complete_goal s d
    (Except.ok r, s2)
  | some "document" =>
    let (r, s2) := document_work s d
    (Except.ok r, s2)
  | some "send_message" =>
    let (r, s2) := send_message s d
    (Except.ok r, s2)
  | _ => (Except.error "Unknown action type", s)

/-- AuditAgent.reset: clear goal, memory and log, back to idle, and
re-synthesize the system message. -/
def reset (s : AgentState) : AgentState :=
  init_system_message
    { s with
      current_goal := none, goal_status := GoalStatus.idle,
      memory := [], action_history := [] }

/-- The while-loop body of AuditAgent.run_autonomously: while working and
iterations remain, reason then act, break on goal_complete, and on any
exception move to blocked and break. Returns (stub, state, iteration). -/
def run_loop (l : GatewayStub) (s : AgentState) (iteration : Nat) :
    Nat → GatewayStub × AgentState × Nat
  | 0 => (l, s, iteration)
  | rem + 1 =>
    if s.goal_status = GoalStatus.working then
      let iteration := iteration + 1
      match reason l s with
      | (Except.error _, l1, s1) =>
        (l1, { s1 with goal_status := GoalStatus.blocked }, iteration)
      | (Except.ok decision, l1, s1) =>
        match act s1 decision with
        | (Except.error _, s2) =>
          (l1, { s2 with goal_status := GoalStatus.blocked }, iteration)
        | (Except.ok _, s2) =>
          if dgetStr decision "action" = some "goal_complete" then (l1, s2, iteration)
          else run_loop l1 s2 iteration rem
    else (l, s, iteration)

/-- The result dict of run_autonomously. -/
structure RunResult where
  status : GoalStatus
  iterations : Nat
  actions_taken : Nat
  deriving DecidableEq, Repr

/-- AuditAgent.run_autonomously: guard on the goal, run the loop, and
afterwards — whenever iteration >= max_iterations, even when the loop
broke because the goal completed — set the status to blocked. -/
def run_autonomously (l : GatewayStub) (s : AgentState) (max_iterations : Nat) :
    Except String RunResult × GatewayStub × AgentState :=
  if goalFalsy s.current_goal then
    (Except.error "No goal set. Call set_goal() first.", l, s)
  else
    let (l1, s1, iteration) := run_loop l s 0 max_iterations
    let s2 := if iteration ≥ max_iterations then
        { s1 with goal_status := GoalStatus.blocked }
      else s1
    (Except.ok ⟨s2.goal_status, iteration, s2.action_history.length⟩, l1, s2)

/-
  Embedding of src/agents/llm_client.py: the CostTracker ledger, the
  per-model price table and the three provider chat paths. Money amounts
  are modelled as exact rationals; the provider transports are abstracted
  into a ProviderResp value carrying the reply text and token usage, and
  the rate limiter (a wall-clock sleep) is elided.
-/

/-- The cost ledger (timestamps of the per-call records elided). -/
structure CostTracker where
  total_cost : ℚ
  total_tokens : Nat
  call_count : Nat
  calls : List (String × Nat × ℚ)
  deriving DecidableEq, Repr

/-- CostTracker.record_call: accumulate cost, tokens and count and append
the per-call record. -/
def CostTracker.record_call (t : CostTracker) (model : String) (tokens : Nat)
    (cost : ℚ) : CostTracker :=
  { total_cost := t.total_cost + cost,
    total_tokens := t.total_tokens + tokens,
    call_count := t.call_count + 1,
    calls := t.calls ++ [(model, tokens, cost)] }

/-- The static per-model price table (input, output per 1K tokens). -/
def PRICING : List (String × ℚ × ℚ) :=
  [("gpt-5", (0.015, 0.045)),
   ("gpt-4-turbo", (0.01, 0.03)),
   ("gpt-4o", (0.005, 0.015)),
   ("gpt-3.5-turbo", (0.0005, 0.0015)),
   ("claude-3-haiku", (0.00025, 0.00125)),
   ("ollama", (0, 0))]

/-- PRICING.get(model, PRICING[fallback]). -/
def pricingFor (model fallback : String) : ℚ × ℚ :=
  (alookup PRICING model).getD ((alookup PRICING fallback).getD (0, 0))

/-- What a provider transport returns for one call: the reply text, the
model string it reports, and token usage. -/
structure ProviderResp where
  content : String
  model : String
  prompt_tokens : Nat
  completion_tokens : Nat
  total_tokens : Nat
  deriving DecidableEq, Repr

/-- The LLMResponse dataclass (timestamp elided). -/
structure LLMResponse where
  content : String
  model : String
  tokens_used : Nat
  cost : ℚ
  deriving DecidableEq, Repr

/-- The cost-relevant state of an LLMClient. -/
structure LLMClientState where
  provider : String
  model : String
  cost_tracker : CostTracker
  deriving DecidableEq, Repr

/-- LLMClient._chat_openai: compute the cost from prompt/completion
tokens and the price table (falling back to the gpt-5 entry), record the
call on the tracker, and return the response. -/
def chat_openai (c : LLMClientState) (resp : ProviderResp) :
    LLMResponse × LLMClientState :=
  let tokens := resp.total_tokens
  let pricing := pricingFor c.model "gpt-5"
  let cost := (resp.prompt_tokens : ℚ) * pricing.1 / 1000 +
    (resp.completion_tokens : ℚ) * pricing.2 / 1000
  let c2 := { c with cost_tracker := c.cost_tracker.record_call c.model tokens cost }
  (⟨resp.content, resp.model, tokens, cost⟩, c2)

/-- LLMClient._chat_anthropic: tokens are input plus output, the price
fallback is claude-3-haiku, and the call is recorded on the tracker. -/
def chat_anthropic (c : LLMClientState) (resp : ProviderResp) :
    LLMResponse × LLMClientState :=
  let tokens := resp.prompt_tokens + resp.completion_tokens
  let pricing := pricingFor c.model "claude-3-haiku"
  let cost := (resp.prompt_tokens : ℚ) * pricing.1 / 1000 +
    (resp.completion_tokens : ℚ) * pricing.2 / 1000
  let c2 := { c with cost_tracker := c.cost_tracker.record_call c.model tokens cost }
  (⟨resp.content, c.model, tokens, cost⟩, c2)

/-- LLMClient._chat_ollama: tokens are estimated as int(words * 1.3) and
the cost is 0.0 — and, unlike the other two providers, record_call is
never invoked, so the tracker is returned unchanged. -/
def chat_ollama (c : LLMClientState) (content : String) :
    LLMResponse × LLMClientState :=
  let tokens := pyWordCount content * 13 / 10
  (⟨content, c.model, tokens, 0⟩, c)

/-- LLMClient.chat: dispatch on the provider (the rate-limiter sleep is
elided); an unknown provider falls through returning None. -/
def llm_chat (c : LLMClientState) (resp : ProviderResp) :
    Option (LLMResponse × LLMClientState) :=
  if c.provider = "openai" then some (chat_openai c resp)
  else if c.provider = "anthropic" then some (chat_anthropic c resp)
  else if c.provider = "ollama" then some (chat_ollama c resp.content)
  else none

/-
  Embedding of src/agents/audit_team.py: the audit-trail logging base
  class, the manager's review calls (the approval gate), the senior
  auditor's supervise_staff guard and the staff auditor's
  collect_evidence guard. Interactive operator input is modelled as a
  list of response strings; running out of responses models an input()
  failure, which leaves the artifact unmutated. Timestamps, console
  output and rationale/metadata of trail entries are elided.
-/

/-- One audit-trail entry (timestamp, rationale and metadata elided). -/
structure AuditTrailEntry where
  agent_id : String
  action_type : String
  action_description : String
  deriving DecidableEq, Repr

/-- State of an audit-team agent: name and audit trail. -/
structure TeamAgentState where
  name : String
  audit_trail : List AuditTrailEntry
  deriving DecidableEq, Repr

/-- AuditAgent.log_action of audit_team.py. -/
def TeamAgentState.log_action (s : TeamAgentState) (action_type description : String) :
    TeamAgentState :=
  { s with audit_trail := s.audit_trail ++ [⟨s.name, action_type, description⟩] }

/-- The gate-relevant fields of a RiskAssessment. -/
structure RiskAssessmentS where
  approved : Bool
  approved_by : Option String
  review_comments : Option String
  deriving DecidableEq, Repr

/-- The gate-relevant fields of an AuditPlan. -/
structure AuditPlanS where
  approved : Bool
  approved_by : Option String
  review_comments : Option String
  deriving DecidableEq, Repr

/-- Operator responses the review loops accept as approval. -/
def yesResponses : List String := ["yes", "y", "approve", "approved"]

/-- Operator responses the review loops accept as rejection. -/
def noResponses : List String := ["no", "n", "reject", "rejected"]

/-- Operator responses that open the non-terminal comment side-channel. -/
def commentResponses : List String := ["comments", "comment", "c"]

/-- The interactive while-loop of AuditManagerAgent.review_audit_plan:
approve sets approved := true; reject reads one feedback input and sets
approved := false; a comment response reads one input and loops; any
other response loops. Running out of inputs models an input() failure
(the plan is unmutated at every such point). -/
def review_audit_plan_loop (m : TeamAgentState) (plan : AuditPlanS) :
    List String → Option (Bool × AuditPlanS × TeamAgentState)
  | [] => none
  | r :: rest =>
    let resp := pyLower (pyStrip r)
    if resp ∈ yesResponses then
      let plan2 := { plan with
        approved := true, approved_by := some m.name,
        review_comments := some "Audit plan approved. Authorized to proceed with test execution." }
      let m2 := m.log_action "approve_audit_plan"
        "Audit plan approved: test procedures authorized for execution"
      some (true, plan2, m2)
    else if resp ∈ noResponses then
      match rest with
      | [] => none
      | fb :: _ =>
        let plan2 := { plan with approved := false, review_comments := some (pyStrip fb) }
        let m2 := m.log_action "reject_audit_plan" "Audit plan requires revision"
        some (false, plan2, m2)
    else if resp ∈ commentResponses then
      match rest with
      | [] => none
      | _ :: rest2 => review_audit_plan_loop m plan rest2
    else review_audit_plan_loop m plan rest

/-- AuditManagerAgent.review_audit_plan: log the review; non-interactive
mode auto-approves; interactive mode runs the operator loop. -/
def review_audit_plan (m : TeamAgentState) (plan : AuditPlanS) (interactive : Bool)
    (inputs : List String) : Option (Bool × AuditPlanS × TeamAgentState) :=
  let m1 := m.log_action "review_audit_plan" "Reviewing audit plan"
  if !interactive then
    let plan2 := { plan with approved := true, approved_by := some m1.name }
    let m2 := m1.log_action "approve_audit_plan" "Audit plan approved"
    some (true, plan2, m2)
  else review_audit_plan_loop m1 plan inputs

/-- The interactive while-loop of review_risk_assessment (same protocol
as the plan loop, on the assessment instance). -/
def review_risk_assessment_loop (m : TeamAgentState) (ra : RiskAssessmentS) :
    List String → Option (Bool × RiskAssessmentS × TeamAgentState)
  | [] => none
  | r :: rest =>
    let resp := pyLower (pyStrip r)
    if resp ∈ yesResponses then
      let ra2 := { ra with
        approved := true, approved_by := some m.name,
        review_comments := some "Risk assessment approved. Proceed with audit planning." }
      let m2 := m.log_action "approve_risk_assessment"
        "Risk assessment approved: high-risk areas will receive priority attention"
      some (true, ra2, m2)
    else if resp ∈ noResponses then
      match rest with
      | [] => none
      | fb :: _ =>
        let ra2 := { ra with approved := false, review_comments := some (pyStrip fb) }
        let m2 := m.log_action "reject_risk_assessment" "Risk assessment requires revision"
        some (false, ra2, m2)
    else if resp ∈ commentResponses then
      match rest with
      | [] => none
      | _ :: rest2 => review_risk_assessment_loop m ra rest2
    else review_risk_assessment_loop m ra rest

/-- AuditManagerAgent.review_risk_assessment: log the review;
non-interactive mode auto-approves; interactive mode runs the loop. -/
def review_risk_assessment (m : TeamAgentState) (ra : RiskAssessmentS)
    (interactive : Bool) (inputs : List String) :
    Option (Bool × RiskAssessmentS × TeamAgentState) :=
  let m1 := m.log_action "review_risk_assessment" "Reviewing risk assessment"
  if !interactive then
    let ra2 := { ra with approved := true, approved_by := some m1.name }
    let m2 := m1.log_action "approve_risk_assessment" "Risk assessment approved"
    some (true, ra2, m2)
  else review_risk_assessment_loop m1 ra inputs

/-- One review call against an artifact: non-interactive, or interactive
with its operator-response script. -/
inductive ReviewCall where
  | auto
  | manual (inputs : List String)

/-- Apply one review call to a plan (an input-exhausted interactive call
raises from input() before any mutation, leaving the plan unchanged). -/
def applyPlanReview (m : TeamAgentState) (plan : AuditPlanS) : ReviewCall → AuditPlanS
  | ReviewCall.auto =>
    match review_audit_plan m plan false [] with
    | some (_, p, _) => p
    | none => plan
  | ReviewCall.manual ins =>
    match review_audit_plan m plan true ins with
    | some (_, p, _) => p
    | none => plan

/-- Apply a sequence of review calls to a plan. -/
def applyPlanReviews (m : TeamAgentState) (plan : AuditPlanS)
    (calls : List ReviewCall) : AuditPlanS :=
  calls.foldl (applyPlanReview m) plan

/-- Apply one review call to a risk assessment. -/
def applyRiskReview (m : TeamAgentState) (ra : RiskAssessmentS) : ReviewCall → RiskAssessmentS
  | ReviewCall.auto =>
    match review_risk_assessment m ra false [] with
    | some (_, p, _) => p
    | none => ra
  | ReviewCall.manual ins =>
    match review_risk_assessment m ra true ins with
    | some (_, p, _) => p
    | none => ra

/-- Apply a sequence of review calls to a risk assessment. -/
def applyRiskReviews (m : TeamAgentState) (ra : RiskAssessmentS)
    (calls : List ReviewCall) : RiskAssessmentS :=
  calls.foldl (applyRiskReview m) ra

/-- Whether an interactive response script reaches a reject decision
(a trailing reject with no feedback input dies in input() instead). -/
def reachesReject : List String → Bool
  | [] => false
  | r :: rest =>
    let resp := pyLower (pyStrip r)
    if resp ∈ yesResponses then false
    else if resp ∈ noResponses then !rest.isEmpty
    else if resp ∈ commentResponses then
      match rest with
      | [] => false
      | _ :: rest2 => reachesReject rest2
    else reachesReject rest

/-- Whether a review call reaches a reject decision. -/
def rejectsCall : ReviewCall → Bool
  | ReviewCall.auto => false
  | ReviewCall.manual ins => reachesReject ins

/-
  Embedding of src/agents/tools.py, TaskManagementTool: the file-backed
  task ledgers. The tasks directory is modelled as a map from file name
  to file content; the current date string is passed in explicitly
  (datetime.now().strftime of the source).
-/

/-- The task files: path to content. -/
structure FS where
  files : List (String × String)
  deriving DecidableEq, Repr

/-- Read a file if it exists. -/
def FS.read? (fs : FS) (path : String) : Option String :=
  alookup fs.files path

/-- Whether a file exists. -/
def FS.existsFile (fs : FS) (path : String) : Bool :=
  (fs.read? path).isSome

/-- Write (create or overwrite) a file. -/
def FS.write (fs : FS) (path content : String) : FS :=
  ⟨assocSet fs.files path content⟩

/-- TaskManagementTool._get_task_file. -/
def get_task_file (agent_name : String) : String :=
  pyLower agent_name ++ "-tasks.md"

/-- The initial ledger content of TaskManagementTool._init_task_file. -/
def init_ledger_content (agent_name : String) : String :=
  "# " ++ pyTitle agent_name ++ "'s Tasks\n\n## Current Tasks\n\n## Completed Tasks\n\n## Delegated Tasks (Waiting on Others)\n"

/-- TaskManagementTool._init_task_file. -/
def init_task_file (fs : FS) (agent_name : String) : FS :=
  fs.write (get_task_file agent_name) (init_ledger_content agent_name)

/-- TaskManagementTool._format_task_entry. -/
def format_task_entry (task assigned_by today priority : String)
    (due_date : Option String) : String :=
  let entry := "- [ ] " ++ task ++ "\n  - Assigned by: " ++ assigned_by ++
    "\n  - Assigned on: " ++ today ++ "\n  - Priority: " ++ priority ++
    "\n  - Status: Not Started\n"
  match due_date with
  | some d => entry ++ "  - Due: " ++ d ++ "\n"
  | none => entry

/-- First half of TaskManagementTool.assign_task: create the assignee's
ledger if missing and insert the task entry before its Completed section. -/
def assign_task_to_write (fs : FS) (today from_agent to_agent task priority : String)
    (due_date : Option String) : FS :=
  let assignee_file := get_task_file to_agent
  let fs1 := if fs.existsFile assignee_file then fs else init_task_file fs to_agent
  let task_entry := format_task_entry task from_agent today priority due_date
  let content := (fs1.read? assignee_file).getD ""
  let parts := pySplit content "## Completed Tasks"
  let current_section := parts.headD ""
  let completed_section :=
    if parts.length > 1 then "## Completed Tasks" ++ parts.getD 1 ""
    else "\n## Completed Tasks\n"
  fs1.write assignee_file (current_section ++ task_entry ++ "\n" ++ completed_section)

/-- Second half of TaskManagementTool.assign_task: create the assigner's
ledger if missing and insert the delegated entry into its Delegated
section. -/
def assign_task_from_write (fs : FS) (today from_agent to_agent task priority : String) :
    FS :=
  let assigner_file := get_task_file from_agent
  let fs1 := if fs.existsFile assigner_file then fs else init_task_file fs from_agent
  let delegated_entry := "- [ ] " ++ task ++ "\n  - Assigned to: " ++ to_agent ++
    "\n  - Assigned on: " ++ today ++ "\n  - Priority: " ++ priority ++
    "\n  - Status: Not Started\n"
  let content := (fs1.read? assigner_file).getD ""
  let updated :=
    if pyIn "## Delegated Tasks" content then
      let parts := pySplit content "## Delegated Tasks"
      let before := parts.headD ""
      let after := if parts.length > 1 then parts.getD 1 "" else "\n"
      before ++ "## Delegated Tasks\n" ++ delegated_entry ++ after
    else content ++ "\n## Delegated Tasks (Waiting on Others)\n" ++ delegated_entry
  fs1.write assigner_file updated

/-- TaskManagementTool.assign_task: the assignee-ledger write followed by
the assigner-ledger write, two separate file writes in sequence (there is
no transaction around the pair). -/
def assign_task (fs : FS) (today from_agent to_agent task priority : String)
    (due_date : Option String) : FS :=
  assign_task_from_write
    (assign_task_to_write fs today from_agent to_agent task priority due_date)
    today from_agent to_agent task priority

/-- A run of assign_task in which a failure is injected after the
assignee-ledger write and before the assigner-ledger write: the first
write has already been persisted when the operation raises. -/
def assign_task_failed_midway (fs : FS) (today from_agent to_agent task priority : String)
    (due_date : Option String) : FS :=
  assign_task_to_write fs today from_agent to_agent task priority due_date

/-- The three sections a ledger parses into. -/
structure ParsedTasks where
  current : List String
  completed : List String
  delegated : List String
  deriving DecidableEq, Repr

/-- The section being read while scanning a ledger. -/
inductive TaskSection where
  | cur
  | comp
  | deleg
  deriving DecidableEq, Repr

/-- One line of TaskManagementTool._parse_task_file's scan. -/
def parse_task_line (st : Option TaskSection × ParsedTasks) (line : String) :
    Option TaskSection × ParsedTasks :=
  let t := pyStrip line
  if t = "## Current Tasks" then (some TaskSection.cur, st.2)
  else if t = "## Completed Tasks" then (some TaskSection.comp, st.2)
  else if startsWithS t "## Delegated" then (some TaskSection.deleg, st.2)
  else if startsWithS t "- [ ]" || startsWithS t "- [x]" then
    match st.1 with
    | some TaskSection.cur => (st.1, { st.2 with current := st.2.current ++ [pyDrop t 6] })
    | some TaskSection.comp => (st.1, { st.2 with completed := st.2.completed ++ [pyDrop t 6] })
    | some TaskSection.deleg => (st.1, { st.2 with delegated := st.2.delegated ++ [pyDrop t 6] })
    | none => st
  else st

/-- TaskManagementTool._parse_task_file. -/
def parse_task_file (content : String) : ParsedTasks :=
  ((pySplit content "\n").foldl parse_task_line (none, ⟨[], [], []⟩)).2

/-- The parsed ledger of an agent: empty when the agent has no file. -/
def ledgerOf (fs : FS) (agent_name : String) : ParsedTasks :=
  match fs.read? (get_task_file agent_name) with
  | some content => parse_task_file content
  | none => ⟨[], [], []⟩

/-
  Embedding of the SeniorAuditorAgent / StaffAuditorAgent guards of
  src/agents/audit_team.py used by the approval gate.
-/

/-- State of a senior auditor: name, assigned staff auditor, trail. -/
structure SeniorAuditorState where
  name : String
  staff_auditor : String
  audit_trail : List AuditTrailEntry
  deriving DecidableEq, Repr

/-- log_action on a senior auditor. -/
def SeniorAuditorState.log_action (s : SeniorAuditorState)
    (action_type description : String) : SeniorAuditorState :=
  { s with audit_trail := s.audit_trail ++ [⟨s.name, action_type, description⟩] }

/-- task.get("description", "N/A") on a task dict. -/
def taskDesc (task : List (String × String)) : String :=
  (alookup task "description").getD "N/A"

/-- The assignment dict supervise_staff returns (timestamps and the task
payload elided; reason is present only on the blocked branch). -/
structure SuperviseResult where
  assigned_by : String
  assigned_to : String
  blocked : Bool
  reason : Option String
  deriving DecidableEq, Repr

/-- SeniorAuditorAgent.supervise_staff: when the plan is not approved,
log task_assignment_blocked and return a blocked result; otherwise log
assign_task and return the assignment record. The function touches no
task ledger in either branch. -/
def supervise_staff (s : SeniorAuditorState) (task : List (String × String))
    (audit_plan_approved : Bool) : SuperviseResult × SeniorAuditorState :=
  if !audit_plan_approved then
    let s2 := s.log_action "task_assignment_blocked"
      ("Cannot assign task to " ++ s.staff_auditor ++ ": " ++ taskDesc task)
    ({ assigned_by := s.name, assigned_to := s.staff_auditor, blocked := true,
       reason := some "Audit plan not approved" }, s2)
  else
    let s2 := s.log_action "assign_task"
      ("Assigning task to " ++ s.staff_auditor ++ ": " ++ taskDesc task)
    ({ assigned_by := s.name, assigned_to := s.staff_auditor, blocked := false,
       reason := none }, s2)

/-- A senior auditor together with the task-ledger files, for stating
which operations create TaskEntries. -/
structure TeamWorld where
  senior : SeniorAuditorState
  ledgers : FS
  deriving DecidableEq, Repr

/-- supervise_staff lifted to the world: the source function reads and
writes no ledger file, so the ledgers component is passed through. -/
def supervise_staff_world (w : TeamWorld) (task : List (String × String))
    (audit_plan_approved : Bool) : SuperviseResult × TeamWorld :=
  let (r, s2) := supervise_staff w.senior task audit_plan_approved
  (r, { w with senior := s2 })

/-- The Evidence record (fields beyond the identifier elided; the staff
collect_evidence path never constructs one). -/
structure EvidenceS where
  evidence_id : String
  source : String
  deriving DecidableEq, Repr

/-- State of a staff auditor. -/
structure StaffAuditorState where
  name : String
  senior_auditor : String
  audit_trail : List AuditTrailEntry
  deriving DecidableEq, Repr

/-- log_action on a staff auditor. -/
def StaffAuditorState.log_action (s : StaffAuditorState)
    (action_type description : String) : StaffAuditorState :=
  { s with audit_trail := s.audit_trail ++ [⟨s.name, action_type, description⟩] }

/-- StaffAuditorAgent.collect_evidence: when there is no assignment, log
evidence_collection_blocked and return None; otherwise log
collect_evidence and evidence_collected — and still return None (the
collection body is a placeholder). -/
def collect_evidence (s : StaffAuditorState) (service : String)
    (has_assignment : Bool) : Option EvidenceS × StaffAuditorState :=
  if !has_assignment then
    (none, s.log_action "evidence_collection_blocked"
      ("Cannot collect evidence from " ++ service))
  else
    let s2 := s.log_action "collect_evidence" ("Collecting evidence from " ++ service)
    let s3 := s2.log_action "evidence_collected" ("Evidence collected from " ++ service)
    (none, s3)

/-
  Concrete fixtures used by counterexamples and witnesses.
-/

/-- A model stub that always answers with a goal_complete decision. -/
def stubGC : GatewayStub :=
  ⟨fun _ => "\x7b\"action\": \"goal_complete\", \"summary\": \"done\"\x7d", 0⟩

/-- A model stub whose replies never contain JSON. -/
def stubBad : GatewayStub := ⟨fun _ => "I cannot answer that.", 0⟩

/-- A fresh agent with no tools and the goal g set. -/
def agentG : AgentState := set_goal (mkAgent "A" "Tester" []) "g"

/-- A tool named dup (first registration). -/
def toolA : Tool := ⟨"dup", "first", fun _ => Except.ok (JVal.jstr "1")⟩

/-- A second tool with the same name dup. -/
def toolB : Tool := ⟨"dup", "second", fun _ => Except.ok (JVal.jstr "2")⟩

/-- A registered tool whose execution always raises. -/
def failTool : Tool := ⟨"t1", "always fails", fun _ => Except.error "boom"⟩

/-- An agent that owns failTool, with a goal set (status working). -/
def agentT : AgentState := set_goal (mkAgent "A" "Tester" [failTool]) "g"

/-- A use_tool decision naming an unregistered tool. -/
def dFrob : Decision :=
  [("action", JVal.jstr "use_tool"), ("tool", JVal.jstr "frobnicate")]

/-- A use_tool decision naming the registered failing tool. -/
def dBoom : Decision :=
  [("action", JVal.jstr "use_tool"), ("tool", JVal.jstr "t1")]

/-- The audit manager fixture. -/
def mgr0 : TeamAgentState := ⟨"Maurice", []⟩

/-- An unreviewed audit plan. -/
def plan0 : AuditPlanS := ⟨false, none, none⟩

/-- An unreviewed risk assessment. -/
def risk0 : RiskAssessmentS := ⟨false, none, none⟩

/-- A senior auditor with staff and empty ledgers. -/
def world0 : TeamWorld := ⟨⟨"Esther", "Hillel", []⟩, ⟨[]⟩⟩

/-- A concrete task dict. -/
def task0 : List (String × String) := [("description", "Test IAM controls")]

/-- A staff auditor fixture. -/
def staff0 : StaffAuditorState := ⟨"Hillel", "Esther", []⟩

/-- An agent with a completed goal, reached through act on a
goal_complete decision. -/
def agentDone : AgentState :=
  (act agentG [("action", JVal.jstr "goal_complete")]).2

/-
  Helper lemmas shared by the claims.
-/

/-- Looking up after a dict-style update: the updated key maps to the new
value and every other key is unchanged. -/
theorem alookup_assocSet {α : Type} (m : List (String × α)) (k : String) (v : α)
    (k2 : String) :
    alookup (assocSet m k v) k2 = if k2 = k then some v else alookup m k2 := by
  induction m with
  | nil =>
    by_cases h : k2 = k
    · subst h; simp [assocSet, alookup]
    · simp [assocSet, alookup, h, Ne.symm h]
  | cons p rest ih =>
    obtain ⟨pk, pv⟩ := p
    by_cases hp : pk = k
    · subst hp
      by_cases h : k2 = pk
      · subst h; simp [assocSet, alookup]
      · simp [assocSet, alookup, h, Ne.symm h]
    · by_cases h2 : pk = k2
      · subst h2
        have : ¬pk = k := hp
        simp [assocSet, alookup, hp, Ne.symm hp]
      · simp [assocSet, alookup, hp, h2, ih]

/-- execute_tool never changes the goal status (or the goal). -/
theorem execute_tool_status (s : AgentState) (d : Decision) :
    (execute_tool s d).2.goal_status = s.goal_status ∧
    (execute_tool s d).2.current_goal = s.current_goal := by
  unfold execute_tool
  cases h : (match dgetStr d "tool" with
    | some n => alookup s.tools n
    | none => none : Option Tool) with
  | none => simp [h]
  | some tool =>
    cases he : tool.execute (dgetObj d "parameters") with
    | ok r => simp [h, he, log_agent_action]
    | error e => simp [h, he, log_agent_action]

/-- act moves to complete exactly on a goal_complete decision and
otherwise leaves the goal status unchanged (an unknown decision kind is
an error with the state unchanged). -/
theorem act_status (s : AgentState) (d : Decision) :
    (act s d).2.goal_status =
      (if dgetStr d "action" = some "goal_complete" then GoalStatus.complete
       else s.goal_status) := by
  unfold act
  cases h : dgetStr d "action" with
  | none => simp [h]
  | some a =>
    by_cases h1 : a = "use_tool"
    · subst h1
      simp [h, (execute_tool_status s d).1]
    · by_cases h2 : a = "goal_complete"
      · subst h2; simp [h, complete_goal, log_agent_action]
      · by_cases h3 : a = "document"
        · subst h3; simp [h, h2, document_work, log_agent_action]
        · by_cases h4 : a = "send_message"
          · subst h4; simp [h, h2, send_message, log_agent_action]
          · simp [h, h1, h2, h3, h4]

/-- reason never changes the goal status. -/
theorem reason_status (l : GatewayStub) (s : AgentState) :
    (reason l s).2.2.goal_status = s.goal_status := by
  unfold reason
  dsimp only [gchat, log_agent_action]
  repeat' split
  all_goals rfl

/-- The loop of run_autonomously ends blocked, complete, or with the
status it started from. -/
theorem run_loop_status (l : GatewayStub) (s : AgentState) (it rem : Nat) :
    (run_loop l s it rem).2.1.goal_status = GoalStatus.blocked ∨
    (run_loop l s it rem).2.1.goal_status = GoalStatus.complete ∨
    (run_loop l s it rem).2.1.goal_status = s.goal_status := by
  induction rem generalizing l s it with
  | zero => right; right; rfl
  | succ k ih =>
    unfold run_loop
    by_cases hw : s.goal_status = GoalStatus.working
    · rw [if_pos hw]
      rcases hr : reason l s with ⟨r, l1, s1⟩
      cases r with
      | error e => simp
      | ok decision =>
        dsimp only
        rcases ha : act s1 decision with ⟨ar, s2⟩
        cases ar with
        | error e => simp
        | ok v =>
          dsimp only
          by_cases hgc : dgetStr decision "action" = some "goal_complete"
          · rw [if_pos hgc]
            right; left
            have := act_status s1 decision
            rw [ha] at this
            simpa [hgc] using this
          · rw [if_neg hgc]
            have hs2 : s2.goal_status = s1.goal_status := by
              have := act_status s1 decision
              rw [ha] at this
              simpa [hgc] using this
            have hs1 : s1.goal_status = s.goal_status := by
              have := reason_status l s
              rw [hr] at this
              exact this
            rcases ih l1 s2 (it + 1) with h | h | h
            · left; exact h
            · right; left; exact h
            · right; right; rw [h, hs2, hs1]
    · simp [hw]

/-- A plan review loop whose response script never reaches a reject
decision leaves an approved plan approved: bounded-length form for the
induction. -/
theorem review_plan_loop_no_reject_aux (n : Nat) :
    ∀ (inputs : List String), inputs.length ≤ n →
    ∀ (m : TeamAgentState) (plan : AuditPlanS), plan.approved = true →
    reachesReject inputs = false →
    ∀ b p m2, review_audit_plan_loop m plan inputs = some (b, p, m2) →
    p.approved = true := by
  induction n with
  | zero =>
    intro inputs hlen m plan _ _ b p m2 heq
    have hnil : inputs = [] := List.length_eq_zero.mp (Nat.le_zero.mp hlen)
    subst hnil
    simp [review_audit_plan_loop] at heq
  | succ k ih =>
    intro inputs hlen m plan ha hr b p m2 heq
    cases inputs with
    | nil => simp [review_audit_plan_loop] at heq
    | cons r rest =>
      unfold review_audit_plan_loop at heq
      unfold reachesReject at hr
      dsimp only at heq hr
      by_cases h1 : pyLower (pyStrip r) ∈ yesResponses
      · rw [if_pos h1] at heq
        simp only [Option.some.injEq, Prod.mk.injEq] at heq
        obtain ⟨-, hp, -⟩ := heq
        rw [← hp]
      · rw [if_neg h1] at heq hr
        by_cases h2 : pyLower (pyStrip r) ∈ noResponses
        · rw [if_pos h2] at heq hr
          have hrest : rest = [] := by
            cases rest with
            | nil => rfl
            | cons x xs => simp at hr
          subst hrest
          simp at heq
        · rw [if_neg h2] at heq hr
          by_cases h3 : pyLower (pyStrip r) ∈ commentResponses
          · rw [if_pos h3] at heq hr
            cases rest with
            | nil => simp at heq
            | cons x rest2 =>
              have hlen2 : rest2.length ≤ k := by
                simp only [List.length_cons] at hlen
                omega
              exact ih rest2 hlen2 m plan ha hr b p m2 heq
          · rw [if_neg h3] at heq hr
            have hlen2 : rest.length ≤ k := by
              simp only [List.length_cons] at hlen
              omega
            exact ih rest hlen2 m plan ha hr b p m2 heq

/-- A risk-assessment review loop whose response script never reaches a
reject decision leaves an approved assessment approved. -/
theorem review_risk_loop_no_reject_aux (n : Nat) :
    ∀ (inputs : List String), inputs.length ≤ n →
    ∀ (m : TeamAgentState) (ra : RiskAssessmentS), ra.approved = true →
    reachesReject inputs = false →
    ∀ b p m2, review_risk_assessment_loop m ra inputs = some (b, p, m2) →
    p.approved = true := by
  induction n with
  | zero =>
    intro inputs hlen m ra _ _ b p m2 heq
    have hnil : inputs = [] := List.length_eq_zero.mp (Nat.le_zero.mp hlen)
    subst hnil
    simp [review_risk_assessment_loop] at heq
  | succ k ih =>
    intro inputs hlen m ra ha hr b p m2 heq
    cases inputs with
    | nil => simp [review_risk_assessment_loop] at heq
    | cons r rest =>
      unfold review_risk_assessment_loop at heq
      unfold reachesReject at hr
      dsimp only at heq hr
      by_cases h1 : pyLower (pyStrip r) ∈ yesResponses
      · rw [if_pos h1] at heq
        simp only [Option.some.injEq, Prod.mk.injEq] at heq
        obtain ⟨-, hp, -⟩ := heq
        rw [← hp]
      · rw [if_neg h1] at heq hr
        by_cases h2 : pyLower (pyStrip r) ∈ noResponses
        · rw [if_pos h2] at heq hr
          have hrest : rest = [] := by
            cases rest with
            | nil => rfl
            | cons x xs => simp at hr
          subst hrest
          simp at heq
        · rw [if_neg h2] at heq hr
          by_cases h3 : pyLower (pyStrip r) ∈ commentResponses
          · rw [if_pos h3] at heq hr
            cases rest with
            | nil => simp at heq
            | cons x rest2 =>
              have hlen2 : rest2.length ≤ k := by
                simp only [List.length_cons] at hlen
                omega
              exact ih rest2 hlen2 m ra ha hr b p m2 heq
          · rw [if_neg h3] at heq hr
            have hlen2 : rest.length ≤ k := by
              simp only [List.length_cons] at hlen
              omega
            exact ih rest hlen2 m ra ha hr b p m2 heq

/-- One review call that does not reach a reject decision keeps an
approved plan approved. -/
theorem applyPlanReview_keeps_approved (m : TeamAgentState) (plan : AuditPlanS)
    (c : ReviewCall) (ha : plan.approved = true) (hc : rejectsCall c = false) :
    (applyPlanReview m plan c).approved = true := by
  cases c with
  | auto => simp [applyPlanReview, review_audit_plan]
  | manual ins =>
    unfold applyPlanReview review_audit_plan
    simp only [Bool.not_true, if_neg]
    cases heq : review_audit_plan_loop (m.log_action "review_audit_plan" "Reviewing audit plan") plan ins with
    | none => simpa [heq] using ha
    | some res =>
      obtain ⟨b, p, m2⟩ := res
      have := review_plan_loop_no_reject_aux ins.length ins le_rfl _ plan ha
        (by simpa [rejectsCall] using hc) b p m2 heq
      simp [heq, this]

/-- One review call that does not reach a reject decision keeps an
approved risk assessment approved. -/
theorem applyRiskReview_keeps_approved (m : TeamAgentState) (ra : RiskAssessmentS)
    (c : ReviewCall) (ha : ra.approved = true) (hc : rejectsCall c = false) :
    (applyRiskReview m ra c).approved = true := by
  cases c with
  | auto => simp [applyRiskReview, review_risk_assessment]
  | manual ins =>
    unfold applyRiskReview review_risk_assessment
    simp only [Bool.not_true, if_neg]
    cases heq : review_risk_assessment_loop (m.log_action "review_risk_assessment" "Reviewing risk assessment") ra ins with
    | none => simpa [heq] using ha
    | some res =>
      obtain ⟨b, p, m2⟩ := res
      have := review_risk_loop_no_reject_aux ins.length ins le_rfl _ ra ha
        (by simpa [rejectsCall] using hc) b p m2 heq
      simp [heq, this]

/-- With enough fuel, splitAux on a one-character separator computes
splitNlAux. -/
theorem splitAux_single (s0 : Char) :
    ∀ (fuel : Nat) (s acc : List Char), s.length ≤ fuel →
    splitAux s0 [] fuel s acc = splitNlAux s0 s acc := by
  intro fuel
  induction fuel with
  | zero =>
    intro s acc hlen
    have : s = [] := List.length_eq_zero.mp (Nat.le_zero.mp hlen)
    subst this
    simp [splitAux, splitNlAux]
  | succ k ih =>
    intro s acc hlen
    cases s with
    | nil => simp [splitAux, splitNlAux]
    | cons c rest =>
      simp only [List.length_cons] at hlen
      have hr : rest.length ≤ k := by omega
      by_cases hc : c = s0
      · simp [splitAux, splitNlAux, startsWithL, hc, ih rest [] hr]
      · simp [splitAux, splitNlAux, startsWithL, hc, ih rest (c :: acc) hr]

/-- Splitting skips over a separator-free segment, accumulating it. -/
theorem splitNlAux_skip (s0 : Char) :
    ∀ (t : List Char), s0 ∉ t →
    ∀ (pre acc : List Char),
    splitNlAux s0 (t ++ pre) acc = splitNlAux s0 pre (t.reverse ++ acc) := by
  intro t
  induction t with
  | nil => intro _ pre acc; simp
  | cons c ts ih =>
    intro h pre acc
    have hc : ¬(c = s0) := (List.ne_of_not_mem_cons h).symm
    have hts : s0 ∉ ts := List.not_mem_of_not_mem_cons h
    simp [splitNlAux, hc, ih hts pre (c :: acc)]

theorem pySplit_newline (s : String) :
    pySplit s "\n" = (splitNlAux '\n' s.data []).map (fun l => String.mk l) := by
  show (splitAux '\n' [] s.data.length s.data []).map (fun l => String.mk l) = _
  rw [splitAux_single '\n' s.data.length s.data [] le_rfl]

/-- Consuming one separator-free line followed by the separator. -/
theorem splitNl_line (l : List Char) (h : '\n' ∉ l) (rest acc : List Char) :
    splitNlAux '\n' (l ++ '\n' :: rest) acc =
      (acc.reverse ++ l) :: splitNlAux '\n' rest [] := by
  rw [splitNlAux_skip '\n' l h]
  simp [splitNlAux, List.reverse_append]

/-- Consuming a separator at the head. -/
theorem splitNl_nl (rest acc : List Char) :
    splitNlAux '\n' ('\n' :: rest) acc = acc.reverse :: splitNlAux '\n' rest [] := by
  simp [splitNlAux]

/-- A whitespace test failing on the head keeps the list. -/
theorem dropLeadingWs_cons_false (c : Char) (h : isPyWs c = false) (rest : List Char) :
    dropLeadingWs (c :: rest) = c :: rest := by
  simp [dropLeadingWs, h]

/-- A checkbox entry line whose task has a non-whitespace last character
is left unchanged by str.strip. -/
theorem pyStrip_entry (task : String) (h : lastNonWs task = true) :
    pyStrip ("- [ ] " ++ task) = "- [ ] " ++ task := by
  unfold lastNonWs at h
  rcases hg : task.data.getLast? with _ | c
  · rw [hg] at h; simp at h
  · rw [hg] at h
    simp only [Bool.not_eq_true'] at h
    have hrev : task.data.reverse.head? = some c := by
      rw [List.head?_reverse]; exact hg
    obtain ⟨t, ht⟩ : ∃ t, task.data.reverse = c :: t := by
      cases hv : task.data.reverse with
      | nil => rw [hv] at hrev; simp at hrev
      | cons a b =>
        rw [hv] at hrev
        simp only [List.head?_cons, Option.some.injEq] at hrev
        exact ⟨b, by rw [hrev]⟩
    show String.mk (dropLeadingWs (dropLeadingWs ("- [ ] ".data ++ task.data)).reverse).reverse = _
    rw [show dropLeadingWs ("- [ ] ".data ++ task.data) = "- [ ] ".data ++ task.data from rfl]
    rw [List.reverse_append, ht, List.cons_append, dropLeadingWs_cons_false c h,
      ← List.cons_append]
    rw [show (c :: t) = task.data.reverse from ht.symm]
    rw [List.reverse_append, List.reverse_reverse, List.reverse_reverse]
    rfl

/-- parse_task_line on a checkbox entry line: appends the task text to
the section being read. -/
theorem parse_entry_line (st : Option TaskSection × ParsedTasks) (task : String)
    (hlast : lastNonWs task = true) :
    parse_task_line st ("- [ ] " ++ task) =
      (match st.1 with
       | some TaskSection.cur => (st.1, { st.2 with current := st.2.current ++ [task] })
       | some TaskSection.comp => (st.1, { st.2 with completed := st.2.completed ++ [task] })
       | some TaskSection.deleg => (st.1, { st.2 with delegated := st.2.delegated ++ [task] })
       | none => st) := by
  have hne1 : ¬(("- [ ] " ++ task : String) = "## Current Tasks") := by
    intro he
    have h2 : (some '-' : Option Char) = some '#' := congrArg (fun s => s.data.head?) he
    exact absurd h2 (by decide)
  have hne2 : ¬(("- [ ] " ++ task : String) = "## Completed Tasks") := by
    intro he
    have h2 : (some '-' : Option Char) = some '#' := congrArg (fun s => s.data.head?) he
    exact absurd h2 (by decide)
  have hsw3 : startsWithS ("- [ ] " ++ task) "## Delegated" = false := rfl
  have hsw4 : startsWithS ("- [ ] " ++ task) "- [ ]" = true := rfl
  unfold parse_task_line
  rw [pyStrip_entry task hlast]
  rw [if_neg hne1, if_neg hne2, if_neg (by rw [hsw3]; exact Bool.false_ne_true)]
  rw [if_pos (by rw [hsw4]; simp)]
  have hdrop : pyDrop ("- [ ] " ++ task) 6 = task := rfl
  rw [hdrop]


/-- parse_task_line on a line that is no section header and no checkbox
entry leaves the scan state unchanged. -/
theorem parse_line_skip (st : Option TaskSection × ParsedTasks) (line : String)
    (h1 : ¬(pyStrip line = "## Current Tasks"))
    (h2 : ¬(pyStrip line = "## Completed Tasks"))
    (h3 : startsWithS (pyStrip line) "## Delegated" = false)
    (h4 : startsWithS (pyStrip line) "- [ ]" = false)
    (h5 : startsWithS (pyStrip line) "- [x]" = false) :
    parse_task_line st line = st := by
  unfold parse_task_line
  rw [if_neg h1, if_neg h2, if_neg (by rw [h3]; exact Bool.false_ne_true),
    if_neg (by rw [h4, h5]; simp)]

/-- parse_task_line on the Current Tasks header. -/
theorem parse_line_cur (st : Option TaskSection × ParsedTasks) :
    parse_task_line st "## Current Tasks" = (some TaskSection.cur, st.2) := by
  unfold parse_task_line
  rw [if_pos (by decide)]

/-- parse_task_line on the Completed Tasks header. -/
theorem parse_line_comp (st : Option TaskSection × ParsedTasks) :
    parse_task_line st "## Completed Tasks" = (some TaskSection.comp, st.2) := by
  unfold parse_task_line
  rw [if_neg (by decide), if_pos (by decide)]

/-- parse_task_line on a Delegated Tasks header line. -/
theorem parse_line_delegHdr (st : Option TaskSection × ParsedTasks) (line : String)
    (h1 : ¬(pyStrip line = "## Current Tasks"))
    (h2 : ¬(pyStrip line = "## Completed Tasks"))
    (h3 : startsWithS (pyStrip line) "## Delegated" = true) :
    parse_task_line st line = (some TaskSection.deleg, st.2) := by
  unfold parse_task_line
  rw [if_neg h1, if_neg h2, if_pos (by rw [h3])]

theorem bob_lines (task : String) (hn : '\n' ∉ task.data) :
    pySplit ("# Bob's Tasks\n\n## Current Tasks\n\n" ++
        ("- [ ] " ++ task ++ "\n  - Assigned by: " ++ "alice" ++ "\n  - Assigned on: " ++
          "2025-01-01" ++ "\n  - Priority: " ++ "medium" ++ "\n  - Status: Not Started\n") ++
        "\n" ++ ("## Completed Tasks" ++ "\n\n## Delegated Tasks (Waiting on Others)\n")) "\n" =
      ["# Bob's Tasks", "", "## Current Tasks", "", "- [ ] " ++ task,
       "  - Assigned by: alice", "  - Assigned on: 2025-01-01",
       "  - Priority: medium", "  - Status: Not Started", "",
       "## Completed Tasks", "", "## Delegated Tasks (Waiting on Others)", ""] := by
  have hentry : '\n' ∉ "- [ ] ".data ++ task.data := by
    intro hm
    rcases List.mem_append.mp hm with h | h
    · exact absurd h (by decide)
    · exact hn h
  rw [pySplit_newline]
  have hdata : ("# Bob's Tasks\n\n## Current Tasks\n\n" ++
        ("- [ ] " ++ task ++ "\n  - Assigned by: " ++ "alice" ++ "\n  - Assigned on: " ++
          "2025-01-01" ++ "\n  - Priority: " ++ "medium" ++ "\n  - Status: Not Started\n") ++
        "\n" ++ ("## Completed Tasks" ++ "\n\n## Delegated Tasks (Waiting on Others)\n")).data =
      "# Bob's Tasks".data ++ '\n' :: '\n' :: ("## Current Tasks".data ++ '\n' :: '\n' ::
        (("- [ ] ".data ++ task.data) ++ '\n' :: ("  - Assigned by: alice".data ++ '\n' ::
          ("  - Assigned on: 2025-01-01".data ++ '\n' :: ("  - Priority: medium".data ++ '\n' ::
            ("  - Status: Not Started".data ++ '\n' :: '\n' :: ("## Completed Tasks".data ++
              '\n' :: '\n' :: ("## Delegated Tasks (Waiting on Others)".data ++ '\n' :: [])))))))) := by
    simp only [String.data_append, List.append_assoc, List.cons_append, List.nil_append]
  rw [hdata]
  rw [splitNl_line "# Bob's Tasks".data (by decide)]
  rw [splitNl_nl]
  rw [splitNl_line "## Current Tasks".data (by decide)]
  rw [splitNl_nl]
  rw [splitNl_line ("- [ ] ".data ++ task.data) hentry]
  rw [splitNl_line "  - Assigned by: alice".data (by decide)]
  rw [splitNl_line "  - Assigned on: 2025-01-01".data (by decide)]
  rw [splitNl_line "  - Priority: medium".data (by decide)]
  rw [splitNl_line "  - Status: Not Started".data (by decide)]
  rw [splitNl_nl]
  rw [splitNl_line "## Completed Tasks".data (by decide)]
  rw [splitNl_nl]
  rw [splitNl_line "## Delegated Tasks (Waiting on Others)".data (by decide)]
  simp [splitNlAux]
  rfl

theorem alice_lines (task : String) (hn : '\n' ∉ task.data) :
    pySplit ("# Alice's Tasks\n\n## Current Tasks\n\n## Completed Tasks\n\n" ++
        "## Delegated Tasks\n" ++
        ("- [ ] " ++ task ++ "\n  - Assigned to: " ++ "bob" ++ "\n  - Assigned on: " ++
          "2025-01-01" ++ "\n  - Priority: " ++ "medium" ++ "\n  - Status: Not Started\n") ++
        " (Waiting on Others)\n") "\n" =
      ["# Alice's Tasks", "", "## Current Tasks", "", "## Completed Tasks", "",
       "## Delegated Tasks", "- [ ] " ++ task, "  - Assigned to: bob",
       "  - Assigned on: 2025-01-01", "  - Priority: medium", "  - Status: Not Started",
       " (Waiting on Others)", ""] := by
  have hentry : '\n' ∉ "- [ ] ".data ++ task.data := by
    intro hm
    rcases List.mem_append.mp hm with h | h
    · exact absurd h (by decide)
    · exact hn h
  rw [pySplit_newline]
  have hdata : ("# Alice's Tasks\n\n## Current Tasks\n\n## Completed Tasks\n\n" ++
        "## Delegated Tasks\n" ++
        ("- [ ] " ++ task ++ "\n  - Assigned to: " ++ "bob" ++ "\n  - Assigned on: " ++
          "2025-01-01" ++ "\n  - Priority: " ++ "medium" ++ "\n  - Status: Not Started\n") ++
        " (Waiting on Others)\n").data =
      "# Alice's Tasks".data ++ '\n' :: '\n' :: ("## Current Tasks".data ++ '\n' :: '\n' ::
        ("## Completed Tasks".data ++ '\n' :: '\n' :: ("## Delegated Tasks".data ++ '\n' ::
          (("- [ ] ".data ++ task.data) ++ '\n' :: ("  - Assigned to: bob".data ++ '\n' ::
            ("  - Assigned on: 2025-01-01".data ++ '\n' :: ("  - Priority: medium".data ++ '\n' ::
              ("  - Status: Not Started".data ++ '\n' :: (" (Waiting on Others)".data ++
                '\n' :: []))))))))) := by
    simp only [String.data_append, List.append_assoc, List.cons_append, List.nil_append]
  rw [hdata]
  rw [splitNl_line "# Alice's Tasks".data (by decide)]
  rw [splitNl_nl]
  rw [splitNl_line "## Current Tasks".data (by decide)]
  rw [splitNl_nl]
  rw [splitNl_line "## Completed Tasks".data (by decide)]
  rw [splitNl_nl]
  rw [splitNl_line "## Delegated Tasks".data (by decide)]
  rw [splitNl_line ("- [ ] ".data ++ task.data) hentry]
  rw [splitNl_line "  - Assigned to: bob".data (by decide)]
  rw [splitNl_line "  - Assigned on: 2025-01-01".data (by decide)]
  rw [splitNl_line "  - Priority: medium".data (by decide)]
  rw [splitNl_line "  - Status: Not Started".data (by decide)]
  rw [splitNl_line " (Waiting on Others)".data (by decide)]
  simp [splitNlAux]
  rfl

theorem bob_ledger (task : String) (hn : '\n' ∉ task.data)
    (hlast : lastNonWs task = true) :
    ledgerOf (assign_task ⟨[]⟩ "2025-01-01" "alice" "bob" task "medium" none) "bob" =
      ⟨[task], [], []⟩ := by
  have hread : (assign_task ⟨[]⟩ "2025-01-01" "alice" "bob" task "medium" none).read?
      (get_task_file "bob") =
    some ("# Bob's Tasks\n\n## Current Tasks\n\n" ++
        ("- [ ] " ++ task ++ "\n  - Assigned by: " ++ "alice" ++ "\n  - Assigned on: " ++
          "2025-01-01" ++ "\n  - Priority: " ++ "medium" ++ "\n  - Status: Not Started\n") ++
        "\n" ++ ("## Completed Tasks" ++ "\n\n## Delegated Tasks (Waiting on Others)\n")) := rfl
  unfold ledgerOf
  rw [hread]
  show parse_task_file ("# Bob's Tasks\n\n## Current Tasks\n\n" ++
        ("- [ ] " ++ task ++ "\n  - Assigned by: " ++ "alice" ++ "\n  - Assigned on: " ++
          "2025-01-01" ++ "\n  - Priority: " ++ "medium" ++ "\n  - Status: Not Started\n") ++
        "\n" ++ ("## Completed Tasks" ++ "\n\n## Delegated Tasks (Waiting on Others)\n")) = _
  unfold parse_task_file
  rw [bob_lines task hn]
  rw [List.foldl_cons,
    parse_line_skip _ "# Bob's Tasks" (by decide) (by decide) (by decide) (by decide) (by decide)]
  rw [List.foldl_cons,
    parse_line_skip _ "" (by decide) (by decide) (by decide) (by decide) (by decide)]
  rw [List.foldl_cons, parse_line_cur _]
  rw [List.foldl_cons,
    parse_line_skip _ "" (by decide) (by decide) (by decide) (by decide) (by decide)]
  rw [List.foldl_cons, parse_entry_line _ task hlast]
  rw [List.foldl_cons,
    parse_line_skip _ "  - Assigned by: alice" (by decide) (by decide) (by decide) (by decide) (by decide)]
  rw [List.foldl_cons,
    parse_line_skip _ "  - Assigned on: 2025-01-01" (by decide) (by decide) (by decide) (by decide) (by decide)]
  rw [List.foldl_cons,
    parse_line_skip _ "  - Priority: medium" (by decide) (by decide) (by decide) (by decide) (by decide)]
  rw [List.foldl_cons,
    parse_line_skip _ "  - Status: Not Started" (by decide) (by decide) (by decide) (by decide) (by decide)]
  rw [List.foldl_cons,
    parse_line_skip _ "" (by decide) (by decide) (by decide) (by decide) (by decide)]
  rw [List.foldl_cons, parse_line_comp _]
  rw [List.foldl_cons,
    parse_line_skip _ "" (by decide) (by decide) (by decide) (by decide) (by decide)]
  rw [List.foldl_cons,
    parse_line_delegHdr _ "## Delegated Tasks (Waiting on Others)" (by decide) (by decide) (by decide)]
  rw [List.foldl_cons,
    parse_line_skip _ "" (by decide) (by decide) (by decide) (by decide) (by decide)]
  rw [List.foldl_nil]
  rfl

theorem alice_ledger (task : String) (hn : '\n' ∉ task.data)
    (hlast : lastNonWs task = true) :
    ledgerOf (assign_task ⟨[]⟩ "2025-01-01" "alice" "bob" task "medium" none) "alice" =
      ⟨[], [], [task]⟩ := by
  have hread : (assign_task ⟨[]⟩ "2025-01-01" "alice" "bob" task "medium" none).read?
      (get_task_file "alice") =
    some ("# Alice's Tasks\n\n## Current Tasks\n\n## Completed Tasks\n\n" ++
        "## Delegated Tasks\n" ++
        ("- [ ] " ++ task ++ "\n  - Assigned to: " ++ "bob" ++ "\n  - Assigned on: " ++
          "2025-01-01" ++ "\n  - Priority: " ++ "medium" ++ "\n  - Status: Not Started\n") ++
        " (Waiting on Others)\n") := rfl
  unfold ledgerOf
  rw [hread]
  show parse_task_file ("# Alice's Tasks\n\n## Current Tasks\n\n## Completed Tasks\n\n" ++
        "## Delegated Tasks\n" ++
        ("- [ ] " ++ task ++ "\n  - Assigned to: " ++ "bob" ++ "\n  - Assigned on: " ++
          "2025-01-01" ++ "\n  - Priority: " ++ "medium" ++ "\n  - Status: Not Started\n") ++
        " (Waiting on Others)\n") = _
  unfold parse_task_file
  rw [alice_lines task hn]
  rw [List.foldl_cons,
    parse_line_skip _ "# Alice's Tasks" (by decide) (by decide) (by decide) (by decide) (by decide)]
  rw [List.foldl_cons,
    parse_line_skip _ "" (by decide) (by decide) (by decide) (by decide) (by decide)]
  rw [List.foldl_cons, parse_line_cur _]
  rw [List.foldl_cons,
    parse_line_skip _ "" (by decide) (by decide) (by decide) (by decide) (by decide)]
  rw [List.foldl_cons, parse_line_comp _]
  rw [List.foldl_cons,
    parse_line_skip _ "" (by decide) (by decide) (by decide) (by decide) (by decide)]
  rw [List.foldl_cons,
    parse_line_delegHdr _ "## Delegated Tasks" (by decide) (by decide) (by decide)]
  rw [List.foldl_cons, parse_entry_line _ task hlast]
  rw [List.foldl_cons,
    parse_line_skip _ "  - Assigned to: bob" (by decide) (by decide) (by decide) (by decide) (by decide)]
  rw [List.foldl_cons,
    parse_line_skip _ "  - Assigned on: 2025-01-01" (by decide) (by decide) (by decide) (by decide) (by decide)]
  rw [List.foldl_cons,
    parse_line_skip _ "  - Priority: medium" (by decide) (by decide) (by decide) (by decide) (by decide)]
  rw [List.foldl_cons,
    parse_line_skip _ "  - Status: Not Started" (by decide) (by decide) (by decide) (by decide) (by decide)]
  rw [List.foldl_cons,
    parse_line_skip _ " (Waiting on Others)" (by decide) (by decide) (by decide) (by decide) (by decide)]
  rw [List.foldl_cons,
    parse_line_skip _ "" (by decide) (by decide) (by decide) (by decide) (by decide)]
  rw [List.foldl_nil]
  rfl

/-
  The claims.
-/

/-- C1 counterexample: approval is not terminal. A plan (and a risk
assessment) whose approved flag was set to true by an approving review
call is set back to approved = false by a later interactive review call
whose operator response is a reject — the very same instance is mutated. -/
theorem C1_reject_resets_approved_counterexample :
    (applyPlanReview mgr0 plan0 (ReviewCall.manual ["yes"])).approved = true ∧
    (applyPlanReview mgr0 (applyPlanReview mgr0 plan0 (ReviewCall.manual ["yes"]))
      (ReviewCall.manual ["no", "needs work"])).approved = false ∧
    (applyRiskReview mgr0 risk0 (ReviewCall.manual ["yes"])).approved = true ∧
    (applyRiskReview mgr0 (applyRiskReview mgr0 risk0 (ReviewCall.manual ["yes"]))
      (ReviewCall.manual ["no", "needs work"])).approved = false := by
  refine ⟨rfl, rfl, rfl, rfl⟩

/-- C1 (amended): once an artifact instance is approved, it stays
approved under any further sequence of review calls none of which
reaches an interactive reject decision (non-interactive calls always
re-approve); an interactive reject, however, does reset the instance. -/
theorem C1_approval_persists_without_reject (m : TeamAgentState) :
    (∀ (plan : AuditPlanS) (calls : List ReviewCall), plan.approved = true →
      (∀ c ∈ calls, rejectsCall c = false) →
      (applyPlanReviews m plan calls).approved = true) ∧
    (∀ (ra : RiskAssessmentS) (calls : List ReviewCall), ra.approved = true →
      (∀ c ∈ calls, rejectsCall c = false) →
      (applyRiskReviews m ra calls).approved = true) := by
  constructor
  · intro plan calls
    induction calls generalizing plan with
    | nil => intro ha _; exact ha
    | cons c rest ih =>
      intro ha hall
      have h1 := applyPlanReview_keeps_approved m plan c ha (hall c (by simp))
      exact ih (applyPlanReview m plan c) h1 (fun c2 hc2 => hall c2 (by simp [hc2]))
  · intro ra calls
    induction calls generalizing ra with
    | nil => intro ha _; exact ha
    | cons c rest ih =>
      intro ha hall
      have h1 := applyRiskReview_keeps_approved m ra c ha (hall c (by simp))
      exact ih (applyRiskReview m ra c) h1 (fun c2 hc2 => hall c2 (by simp [hc2]))

/-- C1 witness: a concrete approved plan and assessment stay approved
under a non-interactive call followed by interactive scripts that loop on
comments and invalid input before approving. -/
theorem C1_approval_persists_without_reject_witness :
    (applyPlanReviews mgr0 ⟨true, none, none⟩
      [ReviewCall.auto, ReviewCall.manual ["comment", "note", "hmm", "approve"]]).approved = true ∧
    (applyRiskReviews mgr0 ⟨true, none, none⟩
      [ReviewCall.manual ["what", "y"], ReviewCall.auto]).approved = true :=
  ⟨(C1_approval_persists_without_reject mgr0).1 ⟨true, none, none⟩
      [ReviewCall.auto, ReviewCall.manual ["comment", "note", "hmm", "approve"]] rfl
      (by decide),
   (C1_approval_persists_without_reject mgr0).2 ⟨true, none, none⟩
      [ReviewCall.manual ["what", "y"], ReviewCall.auto] rfl
      (by decide)⟩

/-- C2 counterexample: registering a second tool under an already-used
name does not fail and does not leave the previous registration
unchanged — the map now holds the second tool under that name. -/
theorem C2_duplicate_name_replaces_counterexample :
    ((register_tool (register_tool (mkAgent "A" "Tester" []) toolA) toolB).tools.map
      (fun p => (p.1, p.2.description))) = [("dup", "second")] := rfl

/-- C2 (amended): register_tool always succeeds and maps the tool's name
to the new tool, replacing any previous registration under that name;
registrations under other names are unchanged. -/
theorem C2_register_replaces (s : AgentState) (t : Tool) (k : String) :
    alookup (register_tool s t).tools k =
      if k = t.name then some t else alookup s.tools k := by
  unfold register_tool
  exact alookup_assocSet s.tools t.name t k

/-- C3: the code sets the final status to blocked whenever the iteration
counter reached max_iterations, even when the loop stopped because a
goal_complete decision was made in that final iteration. With
max_iterations = 1 a stub that immediately completes the goal ends
blocked; with max_iterations = 2 the identical run ends complete, and
the action log is exactly goal_set, reason, goal_complete. -/
theorem C3_completion_at_cap_ends_blocked :
    (run_autonomously stubGC agentG 1).1 =
      Except.ok ⟨GoalStatus.blocked, 1, 3⟩ ∧
    (run_autonomously stubGC agentG 2).1 =
      Except.ok ⟨GoalStatus.complete, 1, 3⟩ ∧
    (run_autonomously stubGC agentG 10).1 =
      Except.ok ⟨GoalStatus.complete, 1, 3⟩ ∧
    ((run_autonomously stubGC agentG 1).2.2.action_history.map
      (fun a => a.action_type)) = ["goal_set", "reason", "goal_complete"] ∧
    ((run_autonomously stubGC agentG 10).2.2.action_history.map
      (fun a => a.action_type)) = ["goal_set", "reason", "goal_complete"] := by
  refine ⟨rfl, rfl, rfl, rfl, rfl⟩

/-- C4: with a model stub none of whose replies parses as a decision,
reason() makes exactly 2 gateway chat calls — the original and one
corrective re-prompt — and surfaces the second parse failure as an error
to the caller. -/
theorem C4_retry_bound (l : GatewayStub) (s : AgentState)
    (hg : goalFalsy s.current_goal = false)
    (hw : s.goal_status = GoalStatus.working)
    (hbad : ∀ n, parse_llm_response (l.replies n) = none) :
    (reason l s).1 = Except.error "Failed to parse LLM response" ∧
    (reason l s).2.1.calls = l.calls + 2 := by
  unfold reason
  simp [hg, hw, gchat, hbad]

/-- C4 witness: the retry bound at a concrete always-malformed stub. -/
theorem C4_retry_bound_witness :
    (reason stubBad agentG).1 = Except.error "Failed to parse LLM response" ∧
    (reason stubBad agentG).2.1.calls = stubBad.calls + 2 :=
  C4_retry_bound stubBad agentG rfl rfl (fun _ => rfl)

/-- C5: tool failures never escape act(). A use_tool decision naming an
unregistered tool does not raise: the only state change is a user memory
message listing the registered tool names (goal status unchanged, nothing
logged). A registered tool whose execute raises has the error text folded
into memory as a user message and a tool_call action logged with an error
field, and the exception is not re-raised. -/
theorem C5_tool_errors_recoverable :
    (∀ (s : AgentState) (d : Decision) (n : String),
      dgetStr d "action" = some "use_tool" →
      dgetStr d "tool" = some n →
      alookup s.tools n = none →
      (act s d).1 = Except.ok (JVal.jobj [("error", JVal.jstr (toolNotFoundMsg n s.tools))]) ∧
      (act s d).2 = { s with memory := s.memory ++ [⟨"user", toolNotFoundMsg n s.tools⟩] }) ∧
    (∀ (s : AgentState) (d : Decision) (n : String) (t : Tool) (e : String),
      dgetStr d "action" = some "use_tool" →
      dgetStr d "tool" = some n →
      alookup s.tools n = some t →
      t.execute (dgetObj d "parameters") = Except.error e →
      (act s d).1 = Except.ok (JVal.jobj [("error", JVal.jstr ("Tool execution failed: " ++ e))]) ∧
      (act s d).2 = { s with
        memory := s.memory ++ [⟨"user", "Tool execution failed: " ++ e⟩],
        action_history := s.action_history ++
          [⟨"tool_call", "Tool call failed: " ++ n,
            [("tool", JVal.jstr n), ("parameters", JVal.jobj (dgetObj d "parameters")),
             ("error", JVal.jstr e)], none⟩] }) := by
  constructor
  · intro s d n hact htool hnone
    unfold act execute_tool
    simp [hact, htool, hnone]
  · intro s d n t e hact htool hsome hexec
    unfold act execute_tool
    simp [hact, htool, hsome, hexec, log_agent_action]

/-- C5 witness: on the concrete agent owning only failTool, a decision
naming frobnicate is absorbed into memory, and a decision naming the
always-raising t1 logs a tool_call with an error field, neither raising. -/
theorem C5_tool_errors_recoverable_witness :
    ((act agentT dFrob).1 =
      Except.ok (JVal.jobj [("error", JVal.jstr (toolNotFoundMsg "frobnicate" agentT.tools))]) ∧
     (act agentT dFrob).2 = { agentT with
        memory := agentT.memory ++ [⟨"user", toolNotFoundMsg "frobnicate" agentT.tools⟩] }) ∧
    ((act agentT dBoom).1 =
      Except.ok (JVal.jobj [("error", JVal.jstr ("Tool execution failed: " ++ "boom"))]) ∧
     (act agentT dBoom).2 = { agentT with
        memory := agentT.memory ++ [⟨"user", "Tool execution failed: " ++ "boom"⟩],
        action_history := agentT.action_history ++
          [⟨"tool_call", "Tool call failed: " ++ "t1",
            [("tool", JVal.jstr "t1"), ("parameters", JVal.jobj (dgetObj dBoom "parameters")),
             ("error", JVal.jstr "boom")], none⟩] }) :=
  ⟨C5_tool_errors_recoverable.1 agentT dFrob "frobnicate" rfl rfl rfl,
   C5_tool_errors_recoverable.2 agentT dBoom "t1" failTool "boom" rfl rfl rfl rfl⟩

/-- C6 counterexample: set_goal does not fail while the agent is
Working — it succeeds, logs a second goal_set and stays Working; and
set_goal called on a Complete agent transitions Complete→Working
directly, a transition outside the claimed set (Blocked/Complete→Idle
only via reset). -/
theorem C6_set_goal_unguarded_counterexample :
    agentG.goal_status = GoalStatus.working ∧
    (set_goal agentG "g2").goal_status = GoalStatus.working ∧
    ((set_goal agentG "g2").action_history.map (fun a => a.action_type)) =
      ["goal_set", "goal_set"] ∧
    agentDone.goal_status = GoalStatus.complete ∧
    (set_goal agentDone "g3").goal_status = GoalStatus.working := by
  refine ⟨rfl, rfl, rfl, rfl, rfl⟩

/-- C6 (amended): set_goal has no precondition — from every state,
including Working, it succeeds and moves the agent to Working with the
new goal; reset moves every state to Idle; reason never changes the
status; act moves to Complete exactly on a goal_complete decision and
otherwise preserves the status; and a run_autonomously call ends
blocked, complete, or with the status it started from. -/
theorem C6_status_transitions :
    (∀ (s : AgentState) (g : String),
      (set_goal s g).goal_status = GoalStatus.working ∧
      (set_goal s g).current_goal = some g) ∧
    (∀ s : AgentState, (reset s).goal_status = GoalStatus.idle ∧
      (reset s).current_goal = none) ∧
    (∀ (l : GatewayStub) (s : AgentState), (reason l s).2.2.goal_status = s.goal_status) ∧
    (∀ (s : AgentState) (d : Decision),
      (act s d).2.goal_status =
        (if dgetStr d "action" = some "goal_complete" then GoalStatus.complete
         else s.goal_status)) ∧
    (∀ (l : GatewayStub) (s : AgentState) (m : Nat),
      (run_autonomously l s m).2.2.goal_status = GoalStatus.blocked ∨
      (run_autonomously l s m).2.2.goal_status = GoalStatus.complete ∨
      (run_autonomously l s m).2.2.goal_status = s.goal_status) := by
  refine ⟨fun s g => ⟨rfl, rfl⟩, fun s => ⟨rfl, rfl⟩, reason_status, act_status, ?_⟩
  intro l s m
  unfold run_autonomously
  by_cases hg : goalFalsy s.current_goal
  · simp [hg]
  · rcases hloop : run_loop l s 0 m with ⟨l1, s1, it⟩
    have hst := run_loop_status l s 0 m
    rw [hloop] at hst
    by_cases hit : it ≥ m
    · simp [hg, hloop, hit]
    · simpa [hg, hloop, hit] using hst

/-- C7 counterexample: supervise_staff with an approved plan logs
assign_task and returns an unblocked assignment record, but creates no
TaskEntry — the task ledgers are untouched and the staff auditor's
ledger stays empty. -/
theorem C7_no_task_entry_created_counterexample :
    (supervise_staff_world world0 task0 true).1.blocked = false ∧
    ((supervise_staff_world world0 task0 true).2.senior.audit_trail.map
      (fun e => e.action_type)) = ["assign_task"] ∧
    (supervise_staff_world world0 task0 true).2.ledgers = world0.ledgers ∧
    (ledgerOf (supervise_staff_world world0 task0 true).2.ledgers "Hillel").current = [] := by
  refine ⟨rfl, rfl, rfl, rfl⟩

/-- C7 (amended): supervise_staff with an unapproved plan logs
task_assignment_blocked and returns a blocked result with reason
"Audit plan not approved"; with an approved plan it logs assign_task and
returns an unblocked assignment record. Neither branch creates a
TaskEntry on any ledger — the ledger files are untouched. -/
theorem C7_supervise_staff_guard (w : TeamWorld) (task : List (String × String)) :
    ((supervise_staff_world w task false).1 =
      ⟨w.senior.name, w.senior.staff_auditor, true, some "Audit plan not approved"⟩ ∧
     (supervise_staff_world w task false).2.ledgers = w.ledgers ∧
     (supervise_staff_world w task false).2.senior.audit_trail =
       w.senior.audit_trail ++ [⟨w.senior.name, "task_assignment_blocked",
         "Cannot assign task to " ++ w.senior.staff_auditor ++ ": " ++ taskDesc task⟩]) ∧
    ((supervise_staff_world w task true).1 =
      ⟨w.senior.name, w.senior.staff_auditor, false, none⟩ ∧
     (supervise_staff_world w task true).2.ledgers = w.ledgers ∧
     (supervise_staff_world w task true).2.senior.audit_trail =
       w.senior.audit_trail ++ [⟨w.senior.name, "assign_task",
         "Assigning task to " ++ w.senior.staff_auditor ++ ": " ++ taskDesc task⟩]) := by
  refine ⟨⟨rfl, rfl, rfl⟩, ⟨rfl, rfl, rfl⟩⟩

/-- C8 counterexample: delegation is not atomic under a mid-operation
failure. When assign_task(alice→bob, "x") fails after the assignee write
and before the assigner write, the observable state has "x" in bob's
Current section while alice's ledger records no delegation at all —
exactly one of the two ledgers shows the task. -/
theorem C8_partial_delegation_observable_counterexample :
    (ledgerOf (assign_task_failed_midway ⟨[]⟩ "2025-01-01" "alice" "bob" "x" "medium" none)
      "bob").current = ["x"] ∧
    (ledgerOf (assign_task_failed_midway ⟨[]⟩ "2025-01-01" "alice" "bob" "x" "medium" none)
      "alice").delegated = [] ∧
    ((assign_task_failed_midway ⟨[]⟩ "2025-01-01" "alice" "bob" "x" "medium" none).read?
      "alice-tasks.md") = none := by
  refine ⟨by decide, by decide, by decide⟩

/-- C8 (amended): on fresh ledgers, a completed, failure-free
assign_task(alice→bob, task) — for every single-line task with a
non-whitespace last character — records the task in bob's Current
section and in alice's Delegated section; but the operation is two
sequential file writes with no transaction around the pair, so a failure
injected between them leaves the partial single-ledger state behind
(see the counterexample). -/
theorem C8_completed_delegation_both_sides (task : String)
    (hn : '\n' ∉ task.data) (hlast : lastNonWs task = true) :
    (ledgerOf (assign_task ⟨[]⟩ "2025-01-01" "alice" "bob" task "medium" none)
      "bob").current = [task] ∧
    (ledgerOf (assign_task ⟨[]⟩ "2025-01-01" "alice" "bob" task "medium" none)
      "alice").delegated = [task] ∧
    assign_task ⟨[]⟩ "2025-01-01" "alice" "bob" task "medium" none =
      assign_task_from_write
        (assign_task_to_write ⟨[]⟩ "2025-01-01" "alice" "bob" task "medium" none)
        "2025-01-01" "alice" "bob" task "medium" := by
  rw [bob_ledger task hn hlast, alice_ledger task hn hlast]
  exact ⟨rfl, rfl, rfl⟩

/-- C8 witness: the delegation record on both ledgers at the concrete
task "x". -/
theorem C8_completed_delegation_both_sides_witness :
    (ledgerOf (assign_task ⟨[]⟩ "2025-01-01" "alice" "bob" "x" "medium" none)
      "bob").current = ["x"] ∧
    (ledgerOf (assign_task ⟨[]⟩ "2025-01-01" "alice" "bob" "x" "medium" none)
      "alice").delegated = ["x"] ∧
    assign_task ⟨[]⟩ "2025-01-01" "alice" "bob" "x" "medium" none =
      assign_task_from_write
        (assign_task_to_write ⟨[]⟩ "2025-01-01" "alice" "bob" "x" "medium" none)
        "2025-01-01" "alice" "bob" "x" "medium" :=
  C8_completed_delegation_both_sides "x" (by decide) rfl

/-- C9 counterexample: a successful ollama chat call does not record
into the cost ledger — the call count stays 0 instead of increasing
by 1. -/
theorem C9_ollama_not_recorded_counterexample :
    (llm_chat ⟨"ollama", "llama3", ⟨0, 0, 0, []⟩⟩
      ⟨"hello there world", "llama3", 5, 7, 12⟩).map
      (fun p => p.2.cost_tracker.call_count) = some 0 ∧
    (llm_chat ⟨"ollama", "llama3", ⟨0, 0, 0, []⟩⟩
      ⟨"hello there world", "llama3", 5, 7, 12⟩).isSome = true := by
  refine ⟨rfl, rfl⟩

/-- C9 (amended): the openai and anthropic chat paths record every
successful call into the cost ledger — the call count grows by exactly
one and the token and cost totals by that call's usage and computed
cost — but the ollama path returns the tracker unchanged, recording
nothing. -/
theorem C9_cost_ledger_accumulates (c : LLMClientState) (resp : ProviderResp)
    (content : String) :
    ((chat_openai c resp).2.cost_tracker.call_count = c.cost_tracker.call_count + 1 ∧
     (chat_openai c resp).2.cost_tracker.total_tokens =
       c.cost_tracker.total_tokens + (chat_openai c resp).1.tokens_used ∧
     (chat_openai c resp).2.cost_tracker.total_cost =
       c.cost_tracker.total_cost + (chat_openai c resp).1.cost) ∧
    ((chat_anthropic c resp).2.cost_tracker.call_count = c.cost_tracker.call_count + 1 ∧
     (chat_anthropic c resp).2.cost_tracker.total_tokens =
       c.cost_tracker.total_tokens + (chat_anthropic c resp).1.tokens_used ∧
     (chat_anthropic c resp).2.cost_tracker.total_cost =
       c.cost_tracker.total_cost + (chat_anthropic c resp).1.cost) ∧
    (chat_ollama c content).2 = c := by
  refine ⟨⟨rfl, rfl, rfl⟩, ⟨rfl, rfl, rfl⟩, rfl⟩

/-- C10: collect_evidence returns None on every input — blocked or not —
so the return value cannot distinguish the two outcomes; only the logged
action types differ (evidence_collection_blocked when blocked,
collect_evidence then evidence_collected when assigned). -/
theorem C10_collect_evidence_always_none (s : StaffAuditorState) (service : String)
    (has_assignment : Bool) :
    (collect_evidence s service has_assignment).1 = none ∧
    (collect_evidence s service false).2.audit_trail =
      s.audit_trail ++ [⟨s.name, "evidence_collection_blocked",
        "Cannot collect evidence from " ++ service⟩] ∧
    (collect_evidence s service true).2.audit_trail =
      s.audit_trail ++ [⟨s.name, "collect_evidence", "Collecting evidence from " ++ service⟩,
        ⟨s.name, "evidence_collected", "Evidence collected from " ++ service⟩] := by
  refine ⟨?_, rfl, ?_⟩
  · cases has_assignment <;> rfl
  · simp [collect_evidence, StaffAuditorState.log_action]

end AuditSpec
